import Mathlib

/-!
Verification development for the financial-tracker transaction pipeline
(`financial_analyzer.py`).  The Python source is shallowly embedded:

* Python strings are Lean `String`s; the handful of Python string methods
  used by the source (`lower`, `strip`, `startswith`, `in`, `split`,
  `title`, slicing, `isdigit`, `isupper`) are re-implemented below over
  `List Char` so that every definition evaluates inside the kernel.
  Only ASCII behaviour is relied on, matching the data the program sees.
* Python floats are modelled as `ℚ`; `float(...)` on a decimal string is
  `pyParseFloat` (exponent forms, infinities and NaN payloads are not
  modelled — a cell that does not parse is a failure `none`).
* The ordered `dict` of categories is an ordered association list
  `List (String × List String)`; Python dicts have unique keys and keep
  insertion order, which the association list preserves.
* `input()` and `KeyboardInterrupt` are modelled as a list of
  `InputEvent`s consumed by the prompt loop; an exhausted event list is
  `none` (the run would block).  The YAML write in
  `update_config_with_new_keyword` is modelled by an explicit `write`
  effect in `update_config_and_persist`.
* A raised-and-not-caught Python exception is `none` of an `Option`.
-/

/-! ## Python string primitives over `List Char` -/

/-- Python `str.lower()` (ASCII). -/
def lowerStr (s : String) : String := ⟨s.data.map Char.toLower⟩

/-- Python `needle in hay` substring test, scanning every suffix. -/
def pyInAux (needle : List Char) : List Char → Bool
  | [] => needle.isEmpty
  | c :: rest => needle.isPrefixOf (c :: rest) || pyInAux needle rest

/-- Python `needle in hay` on strings. -/
def pyIn (needle hay : String) : Bool := pyInAux needle.data hay.data

/-- Python `s.startswith(p)`. -/
def pyStartsWith (s p : String) : Bool := p.data.isPrefixOf s.data

/-- Leading and trailing whitespace removal on a character list. -/
def stripChars (l : List Char) : List Char :=
  ((l.dropWhile Char.isWhitespace).reverse.dropWhile Char.isWhitespace).reverse

/-- Python `s.strip()`. -/
def pyStrip (s : String) : String := ⟨stripChars s.data⟩

/-- Python slicing `s[n:]` (character based, as Python indexes strings). -/
def pyDrop (s : String) (n : Nat) : String := ⟨s.data.drop n⟩

/-- Python slicing `s[:n]`. -/
def pyTake (s : String) (n : Nat) : String := ⟨s.data.take n⟩

/-- Helper for Python `s.split()`: accumulate the current word (reversed). -/
def pySplitAux : List Char → List Char → List String
  | [], acc => if acc.isEmpty then [] else [⟨acc.reverse⟩]
  | c :: rest, acc =>
    if c.isWhitespace then
      if acc.isEmpty then pySplitAux rest []
      else (⟨acc.reverse⟩ : String) :: pySplitAux rest []
    else pySplitAux rest (c :: acc)

/-- Python `s.split()` with no argument: split on whitespace runs, no empties. -/
def pySplitStr (s : String) : List String := pySplitAux s.data []

/-- Python `sep.join(l)`. -/
def pyJoin (sep : String) (l : List String) : String :=
  ⟨sep.data.intercalate (l.map String.data)⟩

/-- Helper for Python `str.title()`: the flag records whether the previous
character was alphabetic (Python: cased). -/
def pyTitleAux : List Char → Bool → List Char
  | [], _ => []
  | c :: cs, prevAlpha =>
    (if c.isAlpha then (if prevAlpha then c.toLower else c.toUpper) else c)
      :: pyTitleAux cs c.isAlpha

/-- Python `s.title()` (ASCII). -/
def pyTitle (s : String) : String := ⟨pyTitleAux s.data false⟩

/-- Python `s.isdigit()` (ASCII): non-empty and all digits. -/
def pyIsDigitStr (w : String) : Bool := !w.data.isEmpty && w.data.all Char.isDigit

/-- Python `s.isupper()` (ASCII): at least one cased character and no
lowercase character. -/
def pyIsUpper (w : String) : Bool :=
  w.data.any Char.isUpper && w.data.all (fun c => !c.isLower)

/-- Value of a digit string. -/
def digitsToNat (ds : List Char) : Nat :=
  ds.foldl (fun a c => a * 10 + (c.toNat - '0'.toNat)) 0

/-- Digit-run acceptor shared by `int(...)` and `float(...)`. -/
def pyParseIntCore (ds : List Char) : Option Nat :=
  if !ds.isEmpty && ds.all Char.isDigit then some (digitsToNat ds) else none

/-- Python `int(s)` on an already `strip`-ped string: optional sign then
decimal digits (underscore separators and non-ASCII digits not modelled). -/
def pyParseInt (s : String) : Option Int :=
  match s.data with
  | '-' :: rest => (pyParseIntCore rest).map (fun m => -(m : Int))
  | '+' :: rest => (pyParseIntCore rest).map (fun m => (m : Int))
  | ds => (pyParseIntCore ds).map (fun m => (m : Int))

/-- Python `float(s)` for plain decimal notation, as `ℚ`:
optional sign, digits, optional fraction ("32.50", ".5", "32.").
Exponent/inf/nan forms are not modelled and yield `none`. -/
def pyParseFloat (s : String) : Option ℚ :=
  let t := (pyStrip s).data
  let sb : ℚ × List Char :=
    match t with
    | '-' :: r => (-1, r)
    | '+' :: r => (1, r)
    | r => (1, r)
  let ip := sb.2.takeWhile (fun c => c ≠ '.')
  let rest := sb.2.dropWhile (fun c => c ≠ '.')
  match rest with
  | [] =>
    if !ip.isEmpty && ip.all Char.isDigit then some (sb.1 * digitsToNat ip) else none
  | _ :: fp =>
    if !(ip ++ fp).isEmpty && (ip ++ fp).all Char.isDigit then
      some (sb.1 * ((digitsToNat ip * 10 ^ fp.length + digitsToNat fp : ℕ) : ℚ)
        / ((10 ^ fp.length : ℕ) : ℚ))
    else none

/-! ## RuleSet data model (`categorization_config`) -/

/-- The in-memory categorization config: the YAML document
`{categories: mapping category → keyword list, default_category}`.
`default_category` is `Option` because the source reads it with
`.get("default_category", "Other")`. -/
structure CategorizationConfig where
  categories : List (String × List String)
  default_category : Option String
  deriving DecidableEq, Repr

/-- The default config substituted by `load_categorization_config` when the
YAML file is missing (`FileNotFoundError` branch). -/
def load_categorization_config_default : CategorizationConfig :=
  { categories :=
      [("Food", ["restaurant", "cafe", "food"]),
       ("Transportation", ["uber", "lyft", "gas", "parking"]),
       ("Shopping", ["amazon", "store"]),
       ("Other", [])],
    default_category := some "Other" }

/-- First-matching lookup of a category's keyword list (Python dict
indexing; keys are unique in a dict). -/
def lookup_keywords : List (String × List String) → String → List String
  | [], _ => []
  | (c, ks) :: rest, category => if c = category then ks else lookup_keywords rest category

/-- The in-memory mutation of `update_config_with_new_keyword`: create the
category with `[]` if absent (a fresh dict key is appended at the end),
then append the keyword if not already present. -/
def add_keyword : List (String × List String) → String → String → List (String × List String)
  | [], category, keyword => [(category, [keyword])]
  | (c, ks) :: rest, category, keyword =>
    if c = category then (c, if keyword ∈ ks then ks else ks ++ [keyword]) :: rest
    else (c, ks) :: add_keyword rest category keyword

/-- `update_config_with_new_keyword`, in-memory part (source lines 569-574). -/
def update_config_with_new_keyword (cfg : CategorizationConfig) (category keyword : String) :
    CategorizationConfig :=
  { cfg with categories := add_keyword cfg.categories category keyword }

/-- `update_config_with_new_keyword` with its YAML write (source lines
576-587): the write is an injected effect; a raised write error is caught
(`except Exception`) and surfaced only as the logged message, never
propagated, and the in-memory mutation stands. -/
def update_config_and_persist (cfg : CategorizationConfig) (category keyword : String)
    (write : CategorizationConfig → Except String Unit) :
    CategorizationConfig × Option String :=
  let updated := update_config_with_new_keyword cfg category keyword
  match write updated with
  | Except.ok _ => (updated, none)
  | Except.error e => (updated, some e)

/-! ## Category classifier -/

/-- `FinancialAnalyzer.AVAILABLE_CATEGORIES`. -/
def AVAILABLE_CATEGORIES : List String :=
  ["Food", "Travel", "Shopping", "Utilities", "Healthcare", "Entertainment",
   "Services", "Payment"]

/-- The keyword loop of `categorize_transaction_with_amount`: first category
whose keyword list has a member `keyword` with `keyword.lower() in desc_lower`. -/
def rule_match : List (String × List String) → String → Option String
  | [], _ => none
  | (category, keywords) :: rest, descLower =>
    if keywords.any (fun k => pyIn (lowerStr k) descLower) then some category
    else rule_match rest descLower

/-- The non-interactive part of `categorize_transaction_with_amount`
(source lines 483-494): the Costco/amount override, then the rule loop;
`none` means the learning fallback (`prompt_user_for_category`) is invoked. -/
def categorize_core (cfg : CategorizationConfig) (description : String) (amount : ℚ) :
    Option String :=
  if pyStartsWith (lowerStr description) "costco-" ∧ (100 : ℚ) < amount then some "Shopping"
  else rule_match cfg.categories (lowerStr description)

/-- One event on the interactive prompt's stdin. -/
inductive InputEvent where
  | line (s : String)
  | interrupt
  deriving DecidableEq, Repr

/-- The bound check `0 <= choice_idx < len(AVAILABLE_CATEGORIES)` with
`choice_idx = n - 1`. -/
def valid_choice_index (n : Int) : Bool :=
  decide (0 ≤ n - 1) && decide (n - 1 < (AVAILABLE_CATEGORIES.length : Int))

/-- `extract_key_term_for_config` prefix list (lowercase in the source). -/
def key_term_prefixes : List String := ["sq *", "tst*", "sp ", "fsp*", "6602-"]

/-- `extract_key_term_for_config` skip list. -/
def key_term_skip_words : List String := ["inc", "llc", "com", "www", "phone", "number"]

/-- The prefix loop of `extract_key_term_for_config`: strip the first
matching prefix (case-insensitive comparison) and stop (`break`). -/
def strip_key_term_prefix : List String → String → String
  | [], clean => clean
  | p :: ps, clean =>
    if pyStartsWith (lowerStr clean) (lowerStr p) then pyStrip (pyDrop clean p.data.length)
    else strip_key_term_prefix ps clean

/-- The word loop of `extract_key_term_for_config`: keep lowercased words of
length > 2 that are not digit strings nor skip words, stopping at two. -/
def collect_meaningful : List String → List String → List String
  | [], acc => acc
  | w :: ws, acc =>
    if w.data.length > 2 && !(pyIsDigitStr w) && !(key_term_skip_words.contains (lowerStr w)) then
      (if (acc ++ [lowerStr w]).length ≥ 2 then acc ++ [lowerStr w]
       else collect_meaningful ws (acc ++ [lowerStr w]))
    else collect_meaningful ws acc

/-- `extract_key_term_for_config` (source lines 538-565). -/
def extract_key_term_for_config (description : String) : String :=
  let clean_desc := strip_key_term_prefix key_term_prefixes description
  let words := pySplitStr clean_desc
  let meaningful_words := collect_meaningful (words.take 3) []
  if !meaningful_words.isEmpty then pyJoin " " meaningful_words
  else
    match words with
    | w :: _ => lowerStr w
    | [] => pyTake (lowerStr description) 10

/-- `prompt_user_for_category` (source lines 499-536) over an explicit input
stream.  An empty line, an unparsable line (`ValueError`) or an
out-of-range number re-prompts; `KeyboardInterrupt` returns
`config.get("default_category", "Other")`; a valid selection learns a
keyword via `update_config_with_new_keyword` and returns the category.
`none` = the input stream ran out (the real loop would still be blocked). -/
def prompt_user_for_category (cfg : CategorizationConfig) (description : String) :
    List InputEvent → Option (String × CategorizationConfig)
  | [] => none
  | InputEvent.interrupt :: _ => some (cfg.default_category.getD "Other", cfg)
  | InputEvent.line s :: rest =>
    if (pyStrip s).data.isEmpty then prompt_user_for_category cfg description rest
    else
      match pyParseInt (pyStrip s) with
      | none => prompt_user_for_category cfg description rest
      | some n =>
        if valid_choice_index n then
          some (AVAILABLE_CATEGORIES.getD (n - 1).toNat "",
            update_config_with_new_keyword cfg (AVAILABLE_CATEGORIES.getD (n - 1).toNat "")
              (extract_key_term_for_config description))
        else prompt_user_for_category cfg description rest

/-- `categorize_transaction_with_amount` (source lines 483-497) in full:
override, rule loop, then the interactive learning fallback.  Returns the
category together with the (possibly mutated) config. -/
def categorize_transaction_with_amount (cfg : CategorizationConfig) (description : String)
    (amount : ℚ) (inputs : List InputEvent) : Option (String × CategorizationConfig) :=
  match categorize_core cfg description amount with
  | some category => some (category, cfg)
  | none => prompt_user_for_category cfg description inputs

/-! ## Source adapters (`CSVProcessor` hierarchy) -/

/-- A CSV cell after `pandas.read_csv` for an object (string) column:
`none` is a missing value (NaN), read from an empty cell. -/
abbrev Cell := Option String

/-- Python `str(cell)`: a NaN prints as `"nan"`. -/
def py_str_cell (c : Cell) : String := c.getD "nan"

/-- A data row: ordered header/cell pairs. -/
abbrev Row := List (String × Cell)

/-- `row[col]` / `col in row`: `none` when the column is absent. -/
def row_get (row : Row) (col : String) : Option Cell :=
  (row.find? (fun p => p.1 == col)).map (fun p => p.2)

/-- The class attributes every `CSVProcessor` subclass configures. -/
structure ProcessorConfig where
  date_column_name : Option String
  description_column_name : Option String
  amount_column_name : Option String
  amount_multiplier : ℚ
  skip_patterns : List String
  deriving DecidableEq, Repr

/-- The canonical transaction dict `{date, description, amount}` produced
per row (dates are kept as raw cells; `pd.to_datetime` is not modelled). -/
structure CanonicalTransaction where
  date : Cell
  description : Cell
  amount : ℚ
  deriving DecidableEq, Repr

/-- `CSVProcessor._should_skip_transaction` (source lines 104-122):
false when there are no skip patterns or no (truthy) description column;
otherwise true iff the lowercased description contains some lowercased
skip pattern; a row without the column is not skipped. -/
def should_skip_transaction (cfg : ProcessorConfig) (row : Row) : Bool :=
  match cfg.description_column_name with
  | none => false
  | some dcol =>
    if cfg.skip_patterns.isEmpty || dcol.data.isEmpty then false
    else
      match row_get row dcol with
      | some cell =>
        cfg.skip_patterns.any (fun p => pyIn (lowerStr p) (lowerStr (py_str_cell cell)))
      | none => false

/-- `CSVProcessor._extract_transaction_data` (source lines 75-102): with all
three column names configured, build the dict from the row; a missing
column name (`NotImplementedError`), missing column (`KeyError`) or
unparsable amount (`ValueError` from `float`) is a raised exception,
modelled as `none`. -/
def extract_transaction_data (cfg : ProcessorConfig) (row : Row) :
    Option CanonicalTransaction :=
  match cfg.date_column_name, cfg.description_column_name, cfg.amount_column_name with
  | some dc, some ec, some ac =>
    if dc.data.isEmpty || ec.data.isEmpty || ac.data.isEmpty then none
    else
      match row_get row dc, row_get row ec, row_get row ac with
      | some dcell, some ecell, some acell =>
        match pyParseFloat (py_str_cell acell) with
        | some q => some ⟨dcell, ecell, q * cfg.amount_multiplier⟩
        | none => none
      | _, _, _ => none
  | _, _, _ => none

/-- `CSVProcessor.process` row loop (source lines 33-43): skip-checked rows
are dropped, the rest extracted in order; an extraction exception aborts
the whole file (`none`). -/
def process (cfg : ProcessorConfig) : List Row → Option (List CanonicalTransaction)
  | [] => some []
  | row :: rest =>
    if should_skip_transaction cfg row then process cfg rest
    else
      match extract_transaction_data cfg row with
      | some t => (process cfg rest).map (fun ts => t :: ts)
      | none => none

/-- A raw row of the Citi CSV before consolidation: columns
`Date, Description, Debit, Credit`. -/
structure CitiRow where
  date_cell : Cell
  description_cell : Cell
  debit : Cell
  credit : Cell
  deriving DecidableEq, Repr

/-- `df[col].fillna(0).astype(float)` on one cell: a missing value becomes
0, a present decimal string is parsed. -/
def fillna_float (c : Cell) : Option ℚ :=
  match c with
  | none => some 0
  | some s => pyParseFloat s

/-- `CitiCSVProcessor.amount_multiplier`. -/
def citi_amount_multiplier : ℚ := 1

/-- `CitiCSVProcessor._consolidate_columns` (source lines 134-140) on one
row: `Amount = Debit.fillna(0) + Credit.fillna(0)` — addition, since
credits already arrive negative. -/
def citi_consolidated_amount (r : CitiRow) : Option ℚ :=
  match fillna_float r.debit, fillna_float r.credit with
  | some d, some c => some (d + c)
  | _, _ => none

/-- The Citi per-row extraction: the inherited `_extract_transaction_data`
reading the consolidated `Amount` column with multiplier 1. -/
def citi_extract_transaction_data (r : CitiRow) : Option CanonicalTransaction :=
  match citi_consolidated_amount r with
  | some amt => some ⟨r.date_cell, r.description_cell, amt * citi_amount_multiplier⟩
  | none => none

/-! ## Merchant normalizer (`extract_merchant_name`) -/

/-- Payment-processor markers stripped in `extract_merchant_name`
(case-sensitive there, each checked once in order, no `break`). -/
def merchant_name_markers : List String := ["SQ *", "TST*", "SP ", "FSP*", "6602-"]

/-- The marker loop of `extract_merchant_name` (source lines 437-441),
starting from the `strip`-ped raw description. -/
def strip_merchant_markers (s : String) : String :=
  merchant_name_markers.foldl
    (fun acc p => if pyStartsWith acc p then pyStrip (pyDrop acc p.data.length) else acc)
    (pyStrip s)

/-- Location/noise words skipped in the `extract_merchant_name` word loop. -/
def merchant_stop_words : List String :=
  ["phone", "number:", "folio", "arrive:", "depart:", "www", "com", "ecom"]

/-- Phone-number-like test (source lines 449-451): has a digit and one of
the characters '-', '.', '/'. -/
def is_phone_like (w : String) : Bool :=
  w.data.any Char.isDigit && w.data.any (fun c => c == '-' || c == '.' || c == '/')

/-- The word loop of `extract_merchant_name` (source lines 447-474): drop
phone-like words, two-letter uppercase words and stop words; title-case
words longer than one character; stop once two words are kept. -/
def collect_clean_words : List String → List String → List String
  | [], acc => acc
  | w :: ws, acc =>
    if is_phone_like w then collect_clean_words ws acc
    else if w.data.length == 2 && pyIsUpper w then collect_clean_words ws acc
    else if merchant_stop_words.contains (lowerStr w) then collect_clean_words ws acc
    else
      (if (if w.data.length > 1 then acc ++ [pyTitle w] else acc).length ≥ 2 then
        (if w.data.length > 1 then acc ++ [pyTitle w] else acc)
      else collect_clean_words ws (if w.data.length > 1 then acc ++ [pyTitle w] else acc))

/-- `extract_merchant_name` (source lines 326-481): the ordered
known-merchant table on the lowercased description, then the fallback
heuristic, then the truncated title-cased first token / raw description. -/
def extract_merchant_name (raw_description : String) : String :=
  let d := lowerStr raw_description
  if pyIn "tesla" d && (pyIn "supercharger" d || pyIn "charge" d) then "TESLA Charging"
  else if pyIn "blink charging" d || pyIn "blink" d then "Blink Charging"
  else if pyIn "amazon" d then "AMAZON"
  else if pyIn "starbucks" d then "STARBUCKS"
  else if pyIn "delta" d && pyIn "air" d then "DELTA Airlines"
  else if pyIn "uber" d then "UBER"
  else if pyIn "lyft" d then "LYFT"
  else if pyIn "safeway" d then "SAFEWAY"
  else if pyIn "qfc" d then "QFC"
  else if pyIn "at&t" d then "AT&T"
  else if pyIn "t&t" d && pyIn "supermarket" d then "T&T Supermarket"
  else if pyIn "puget sound energy" d then "Puget Sound"
  else if pyIn "progressive" d && pyIn "insurance" d then "Progressive Insurance"
  else if pyIn "rei" d && (pyIn "rei " d || pyIn "rei.com" d) then "REI"
  else if pyIn "best buy" d then "Best Buy"
  else if pyIn "target" d then "Target"
  else if pyIn "home depot" d then "Home Depot"
  else if pyIn "ikea" d then "IKEA"
  else if pyIn "uscis" d then "USCIS"
  else if pyIn "us treas" d && (pyIn "tax" d || pyIn "pymt" d) then "US Treasury"
  else if pyIn "autopay" d || pyIn "payment" d then "Payment"
  else if pyIn "walgreens" d then "WALGREENS"
  else if pyIn "cvs" d then "CVS"
  else if pyIn "shell" d then "SHELL"
  else if pyIn "chevron" d then "CHEVRON"
  else if pyIn "arco" d then "ARCO"
  else if pyIn "mcdonald" d then "McDonalds"
  else if pyIn "subway" d then "SUBWAY"
  else if pyIn "trader joe" d then "Trader Joes"
  else if pyIn "whole foods" d then "Whole Foods"
  else if pyIn "walmart" d || pyIn "wm supercenter" d then "WALMART"
  else if pyIn "fred meyer" d || pyIn "fred-meyer" d then "Fred Meyer"
  else if pyIn "goodwill" d then "GOODWILL"
  else if pyIn "netflix" d then "NETFLIX"
  else if pyIn "spotify" d then "SPOTIFY"
  else if pyIn "apple" d && (pyIn "store" d || pyIn "itunes" d) then "Apple Store"
  else if pyIn "google" d then "GOOGLE"
  else if pyIn "microsoft" d then "MICROSOFT"
  else if pyIn "too good to go" d then "Too Good"
  else if pyIn "summit" d && pyIn "snoqualmie" d then "Summit Snoqualmie"
  else if pyIn "claire" d then "CLAIRE"
  else if pyIn "ten seconds" d then "Ten Seconds"
  else if pyIn "legoland" d then "LEGOLAND"
  else if pyIn "dough zone" d then "Dough Zone"
  else if pyIn "pay by phone" d || pyIn "paybyphone" d then "Parking"
  else if pyIn "spokane" d then
    (if pyIn "hotel" d || pyIn "club" d then "Spokane Club"
     else if pyIn "restaurant" d || pyIn "kitchen" d then "Spokane Restaurant"
     else "Spokane Business")
  else
    let words := pySplitStr (strip_merchant_markers raw_description)
    let clean_words := collect_clean_words words []
    if !clean_words.isEmpty then pyJoin " " (clean_words.take 2)
    else
      match words with
      | w :: _ => pyTake (pyTitle w) 15
      | [] => pyTake (pyTitle raw_description) 15

/-- Sanity check of the known-merchant table on the spec's scenario rows. -/
theorem extract_merchant_name_scenarios :
    extract_merchant_name "STARBUCKS #1234 SEATTLE WA" = "STARBUCKS" ∧
    extract_merchant_name "TST* Dough Zone 2xxx" = "Dough Zone" := by
  decide

/-! ## Helper lemmas -/

theorem lookup_add_keyword (l : List (String × List String)) (c k : String) :
    lookup_keywords (add_keyword l c k) c =
      (if k ∈ lookup_keywords l c then lookup_keywords l c
       else lookup_keywords l c ++ [k]) := by
  induction l with
  | nil => simp [add_keyword, lookup_keywords]
  | cons hd tl ih =>
    obtain ⟨c', ks⟩ := hd
    by_cases hc : c' = c
    · subst hc
      by_cases hk : k ∈ ks <;> simp [add_keyword, lookup_keywords, hk]
    · simp [add_keyword, lookup_keywords, hc, ih]

theorem add_keyword_idem (l : List (String × List String)) (c k : String) :
    add_keyword (add_keyword l c k) c k = add_keyword l c k := by
  induction l with
  | nil => simp [add_keyword]
  | cons hd tl ih =>
    obtain ⟨c', ks⟩ := hd
    by_cases hc : c' = c
    · subst hc
      by_cases hk : k ∈ ks <;> simp [add_keyword, hk]
    · simp [add_keyword, hc, ih]

theorem mem_lookup_add_keyword (l : List (String × List String)) (c k : String) :
    k ∈ lookup_keywords (add_keyword l c k) c := by
  rw [lookup_add_keyword]
  by_cases h : k ∈ lookup_keywords l c <;> simp [h]

theorem add_keyword_of_not_mem (l : List (String × List String)) (c k : String)
    (h : ∀ p ∈ l, p.1 ≠ c) : add_keyword l c k = l ++ [(c, [k])] := by
  induction l with
  | nil => simp [add_keyword]
  | cons hd tl ih =>
    obtain ⟨c', ks⟩ := hd
    have hc : c' ≠ c := h (c', ks) (by simp)
    simp only [add_keyword, if_neg hc, List.cons_append, List.cons.injEq, true_and]
    exact ih (fun p hp => h p (by simp [hp]))

theorem exists_entry_add_keyword (l : List (String × List String)) (c k : String) :
    ∃ ks, (c, ks) ∈ add_keyword l c k ∧ k ∈ ks := by
  induction l with
  | nil => exact ⟨[k], by simp [add_keyword], by simp⟩
  | cons hd tl ih =>
    obtain ⟨c', ks⟩ := hd
    by_cases hc : c' = c
    · subst hc
      by_cases hk : k ∈ ks
      · exact ⟨ks, by simp [add_keyword, hk], hk⟩
      · exact ⟨ks ++ [k], by simp [add_keyword, hk], by simp⟩
    · obtain ⟨ks2, hmem, hk2⟩ := ih
      exact ⟨ks2, by simp [add_keyword, hc, hmem], hk2⟩

theorem rule_match_eq_find (l : List (String × List String)) (d : String) :
    rule_match l d =
      (l.find? (fun p => p.2.any (fun k => pyIn (lowerStr k) d))).map Prod.fst := by
  induction l with
  | nil => rfl
  | cons hd tl ih =>
    obtain ⟨c, ks⟩ := hd
    by_cases h : ks.any (fun k => pyIn (lowerStr k) d) = true
    · simp [rule_match, List.find?_cons, h]
    · simp only [Bool.not_eq_true] at h
      simp [rule_match, List.find?_cons, h, ih]

theorem rule_match_isSome_of_mem (l : List (String × List String)) (d : String)
    (p : String × List String) (hp : p ∈ l)
    (h : p.2.any (fun k => pyIn (lowerStr k) d) = true) :
    ∃ c, rule_match l d = some c := by
  induction l with
  | nil => cases hp
  | cons hd tl ih =>
    obtain ⟨c', ks⟩ := hd
    by_cases hh : ks.any (fun k => pyIn (lowerStr k) d) = true
    · exact ⟨c', by simp [rule_match, hh]⟩
    · rcases List.mem_cons.mp hp with heq | htl
      · rw [heq] at h; exact absurd h hh
      · obtain ⟨c2, hc2⟩ := ih htl
        simp only [Bool.not_eq_true] at hh
        exact ⟨c2, by simp [rule_match, hh, hc2]⟩

/-! ## Claim theorems -/

/-- C1: for every merchant name starting (case-insensitively) with
"costco-" and every amount strictly greater than 100,
`categorize_transaction_with_amount` returns "Shopping" for every rule
set and every input stream, without invoking the learning fallback. -/
theorem costco_override_returns_shopping (cfg : CategorizationConfig)
    (merchant_name : String) (amount : ℚ)
    (h1 : pyStartsWith (lowerStr merchant_name) "costco-" = true)
    (h2 : (100 : ℚ) < amount) :
    categorize_core cfg merchant_name amount = some "Shopping" ∧
      ∀ inputs, categorize_transaction_with_amount cfg merchant_name amount inputs =
        some ("Shopping", cfg) := by
  have hcore : categorize_core cfg merchant_name amount = some "Shopping" := by
    unfold categorize_core
    rw [if_pos ⟨h1, h2⟩]
  exact ⟨hcore, fun inputs => by
    unfold categorize_transaction_with_amount
    rw [hcore]⟩

/-- C1 witness: a concrete Costco-tagged transaction over 100 is
"Shopping" even under a rule set that maps "costco" to "Food". -/
theorem costco_override_returns_shopping_witness :
    pyStartsWith (lowerStr "COSTCO-TV PURCHASE") "costco-" = true ∧
    (100 : ℚ) < 250 ∧
    categorize_transaction_with_amount
        ⟨[("Food", ["costco"])], some "Other"⟩ "COSTCO-TV PURCHASE" 250 [] =
      some ("Shopping", ⟨[("Food", ["costco"])], some "Other"⟩) :=
  ⟨by decide, by decide,
    (costco_override_returns_shopping ⟨[("Food", ["costco"])], some "Other"⟩
      "COSTCO-TV PURCHASE" 250 (by decide) (by decide)).2 []⟩

/-- C2: when the Costco override does not apply and some category's
keyword list has a case-insensitive substring match on the merchant name,
the first such category (in stored order, per `List.find?`) is returned,
the learning fallback is not invoked, and the rule set is unchanged. -/
theorem first_matching_category_wins (cfg : CategorizationConfig)
    (merchant_name : String) (amount : ℚ) (entry : String × List String)
    (hov : ¬(pyStartsWith (lowerStr merchant_name) "costco-" = true ∧ (100 : ℚ) < amount))
    (hfind : cfg.categories.find?
        (fun p => p.2.any (fun k => pyIn (lowerStr k) (lowerStr merchant_name))) =
      some entry) :
    categorize_core cfg merchant_name amount = some entry.1 ∧
      ∀ inputs, categorize_transaction_with_amount cfg merchant_name amount inputs =
        some (entry.1, cfg) := by
  have hcore : categorize_core cfg merchant_name amount = some entry.1 := by
    unfold categorize_core
    rw [if_neg hov, rule_match_eq_find, hfind]
    rfl
  exact ⟨hcore, fun inputs => by
    unfold categorize_transaction_with_amount
    rw [hcore]⟩

/-- C2 witness: under the built-in default rule set, "Uber Trip" matches
the "uber" keyword of "Transportation" (the first matching category) and
no learning happens. -/
theorem first_matching_category_wins_witness :
    load_categorization_config_default.categories.find?
        (fun p => p.2.any (fun k => pyIn (lowerStr k) (lowerStr "Uber Trip"))) =
      some ("Transportation", ["uber", "lyft", "gas", "parking"]) ∧
    categorize_transaction_with_amount load_categorization_config_default
        "Uber Trip" 25 [] =
      some ("Transportation", load_categorization_config_default) :=
  ⟨by decide,
    (first_matching_category_wins load_categorization_config_default "Uber Trip" 25
      ("Transportation", ["uber", "lyft", "gas", "parking"])
      (by decide) (by decide)).2 []⟩

/-- C4: `update_config_with_new_keyword` is idempotent — calling it twice
yields the same rule set as calling it once — and when the keyword was not
yet present, after the first addition it appears exactly once in the
category's list. -/
theorem update_config_idempotent (cfg : CategorizationConfig) (category keyword : String) :
    update_config_with_new_keyword (update_config_with_new_keyword cfg category keyword)
        category keyword =
      update_config_with_new_keyword cfg category keyword ∧
    (keyword ∉ lookup_keywords cfg.categories category →
      (lookup_keywords (update_config_with_new_keyword cfg category keyword).categories
          category).count keyword = 1) := by
  constructor
  · simp [update_config_with_new_keyword, add_keyword_idem]
  · intro hk
    show (lookup_keywords (add_keyword cfg.categories category keyword) category).count
        keyword = 1
    rw [lookup_add_keyword, if_neg hk, List.count_append,
      List.count_eq_zero.mpr hk]
    simp

/-- C4 witness: learning "bistro" for "Food" twice equals learning it once,
and it appears exactly once afterwards. -/
theorem update_config_idempotent_witness :
    update_config_with_new_keyword
        (update_config_with_new_keyword load_categorization_config_default "Food" "bistro")
        "Food" "bistro" =
      update_config_with_new_keyword load_categorization_config_default "Food" "bistro" ∧
    (lookup_keywords (update_config_with_new_keyword load_categorization_config_default
        "Food" "bistro").categories "Food").count "bistro" = 1 :=
  ⟨(update_config_idempotent load_categorization_config_default "Food" "bistro").1,
    (update_config_idempotent load_categorization_config_default "Food" "bistro").2
      (by decide)⟩

/-- C5: if the durable write raises, `update_config_with_new_keyword`
catches the error (returning normally, with only a logged message) and the
in-memory rule set keeps the learned keyword: no rollback. -/
theorem persist_failure_keeps_in_memory_update (cfg : CategorizationConfig)
    (category keyword e : String) (write : CategorizationConfig → Except String Unit)
    (hw : write (update_config_with_new_keyword cfg category keyword) = Except.error e) :
    update_config_and_persist cfg category keyword write =
      (update_config_with_new_keyword cfg category keyword, some e) ∧
    keyword ∈ lookup_keywords
      (update_config_with_new_keyword cfg category keyword).categories category := by
  constructor
  · simp only [update_config_and_persist]
    rw [hw]
  · exact mem_lookup_add_keyword cfg.categories category keyword

/-- C5 witness: a write that always fails with "disk full" is caught, the
error is only reported, and "ikea" is still learned for "Shopping". -/
theorem persist_failure_keeps_in_memory_update_witness :
    update_config_and_persist load_categorization_config_default "Shopping" "ikea"
        (fun _ => Except.error "disk full") =
      (update_config_with_new_keyword load_categorization_config_default "Shopping" "ikea",
        some "disk full") ∧
    "ikea" ∈ lookup_keywords (update_config_with_new_keyword
      load_categorization_config_default "Shopping" "ikea").categories "Shopping" :=
  persist_failure_keeps_in_memory_update load_categorization_config_default
    "Shopping" "ikea" "disk full" (fun _ => Except.error "disk full") rfl

/-- C10: learning a keyword for a category absent from the mapping (such as
"Payment" from the selection list) does not fail: the category is created
as a new entry appended at the end, holding exactly `[keyword]`. -/
theorem unknown_category_created_at_end (cfg : CategorizationConfig) (category keyword : String)
    (h : ∀ p ∈ cfg.categories, p.1 ≠ category) :
    update_config_with_new_keyword cfg category keyword =
      { cfg with categories := cfg.categories ++ [(category, [keyword])] } := by
  unfold update_config_with_new_keyword
  rw [add_keyword_of_not_mem cfg.categories category keyword h]

/-- C10 witness: "Payment" is not a key of the default rule set and gets
created at the end with the single keyword "autopay". -/
theorem unknown_category_created_at_end_witness :
    (∀ p ∈ load_categorization_config_default.categories, p.1 ≠ "Payment") ∧
    update_config_with_new_keyword load_categorization_config_default "Payment" "autopay" =
      { load_categorization_config_default with
          categories := load_categorization_config_default.categories ++
            [("Payment", ["autopay"])] } :=
  ⟨by decide,
    unknown_category_created_at_end load_categorization_config_default "Payment" "autopay"
      (by decide)⟩

/-- A prompt line that re-prompts: blank after stripping, unparsable as an
integer (`ValueError`), or an out-of-range selection. -/
def line_retries (s : String) : Bool :=
  (pyStrip s).data.isEmpty ||
    (match pyParseInt (pyStrip s) with
     | none => true
     | some n => !(valid_choice_index n))

theorem prompt_retry_line (cfg : CategorizationConfig) (description s : String)
    (rest : List InputEvent) (h : line_retries s = true) :
    prompt_user_for_category cfg description (InputEvent.line s :: rest) =
      prompt_user_for_category cfg description rest := by
  unfold line_retries at h
  simp only [prompt_user_for_category]
  by_cases he : (pyStrip s).data.isEmpty = true
  · rw [if_pos he]
  · rw [if_neg he]
    simp only [he, Bool.false_or] at h
    cases hp : pyParseInt (pyStrip s) with
    | none => rfl
    | some n =>
      rw [hp] at h
      have hv : (!(valid_choice_index n)) = true := h
      rw [Bool.not_eq_true'] at hv
      show (if valid_choice_index n = true then
          some (AVAILABLE_CATEGORIES.getD (n - 1).toNat "",
            update_config_with_new_keyword cfg (AVAILABLE_CATEGORIES.getD (n - 1).toNat "")
              (extract_key_term_for_config description))
        else prompt_user_for_category cfg description rest) =
        prompt_user_for_category cfg description rest
      rw [if_neg (by rw [hv]; exact Bool.false_ne_true)]

/-- C6: if an interrupt arrives while the prompt is awaiting input (after
any number of re-prompting lines), `prompt_user_for_category` returns the
configured `default_category` ("Other" if none is configured) without
raising and without mutating the rule set. -/
theorem interrupt_returns_default_category (cfg : CategorizationConfig)
    (merchant_name : String) (pre rest : List InputEvent)
    (hpre : ∀ e ∈ pre, ∃ s, e = InputEvent.line s ∧ line_retries s = true) :
    prompt_user_for_category cfg merchant_name (pre ++ InputEvent.interrupt :: rest) =
      some (cfg.default_category.getD "Other", cfg) := by
  induction pre with
  | nil => rfl
  | cons e pre2 ih =>
    obtain ⟨s, he, hr⟩ := hpre e (by simp)
    subst he
    rw [List.cons_append, prompt_retry_line cfg merchant_name s _ hr]
    exact ih (fun e2 he2 => hpre e2 (by simp [he2]))

/-- C6 witness: an invalid line followed by an interrupt yields the
configured default "Other" and leaves the default rule set untouched. -/
theorem interrupt_returns_default_category_witness :
    prompt_user_for_category load_categorization_config_default "Mystery Shop"
        [InputEvent.line "abc", InputEvent.interrupt] =
      some ("Other", load_categorization_config_default) :=
  interrupt_returns_default_category load_categorization_config_default "Mystery Shop"
    [InputEvent.line "abc"] []
    (by
      intro e he
      rw [List.mem_singleton] at he
      subst he
      exact ⟨"abc", rfl, by decide⟩)

/-- C3 counterexample: under the built-in default rule set, the merchant
"Hello XY World" reaches the learning fallback; selecting "Shopping"
(input "3") appends the derived keyword "hello world", yet a second call
with the same merchant name still reaches the learning fallback, because
"hello world" is not a substring of "hello xy world" — the claim's final
conjunct fails. -/
theorem relearned_keyword_not_substring_counterexample :
    extract_key_term_for_config "Hello XY World" = "hello world" ∧
    categorize_core load_categorization_config_default "Hello XY World" 0 = none ∧
    categorize_transaction_with_amount load_categorization_config_default
        "Hello XY World" 0 [InputEvent.line "3"] =
      some ("Shopping",
        update_config_with_new_keyword load_categorization_config_default
          "Shopping" "hello world") ∧
    categorize_core
        (update_config_with_new_keyword load_categorization_config_default
          "Shopping" "hello world") "Hello XY World" 0 = none := by
  decide

/-- C3 (amended): on the fallback path, a selection resolving to category C
returns C with the derived keyword appended to C's list; and provided the
derived keyword is a case-insensitive substring of the merchant name, a
second call classifies via rule matching, never reaching the fallback. -/
theorem learning_fallback_updates_and_rematches (cfg : CategorizationConfig)
    (merchant_name s C kw : String) (amount : ℚ) (n : Int)
    (hcore : categorize_core cfg merchant_name amount = none)
    (hne : (pyStrip s).data.isEmpty = false)
    (hparse : pyParseInt (pyStrip s) = some n)
    (hvalid : valid_choice_index n = true)
    (hC : AVAILABLE_CATEGORIES.getD (n - 1).toNat "" = C)
    (hkw : extract_key_term_for_config merchant_name = kw)
    (hsub : pyIn (lowerStr kw) (lowerStr merchant_name) = true) :
    categorize_transaction_with_amount cfg merchant_name amount [InputEvent.line s] =
      some (C, update_config_with_new_keyword cfg C kw) ∧
    kw ∈ lookup_keywords (update_config_with_new_keyword cfg C kw).categories C ∧
    ∃ c2, categorize_core (update_config_with_new_keyword cfg C kw) merchant_name amount =
        some c2 ∧
      ∀ inputs2, categorize_transaction_with_amount
          (update_config_with_new_keyword cfg C kw) merchant_name amount inputs2 =
        some (c2, update_config_with_new_keyword cfg C kw) := by
  have hov : ¬(pyStartsWith (lowerStr merchant_name) "costco-" = true ∧
      (100 : ℚ) < amount) := by
    intro h
    unfold categorize_core at hcore
    rw [if_pos h] at hcore
    exact Option.noConfusion hcore
  refine ⟨?_, ?_, ?_⟩
  · unfold categorize_transaction_with_amount
    rw [hcore]
    simp only [prompt_user_for_category]
    rw [if_neg (by rw [hne]; exact Bool.false_ne_true), hparse]
    subst hC
    subst hkw
    show (if valid_choice_index n = true then
        some (AVAILABLE_CATEGORIES.getD (n - 1).toNat "",
          update_config_with_new_keyword cfg (AVAILABLE_CATEGORIES.getD (n - 1).toNat "")
            (extract_key_term_for_config merchant_name))
      else prompt_user_for_category cfg merchant_name []) =
      some (AVAILABLE_CATEGORIES.getD (n - 1).toNat "",
        update_config_with_new_keyword cfg (AVAILABLE_CATEGORIES.getD (n - 1).toNat "")
          (extract_key_term_for_config merchant_name))
    rw [if_pos hvalid]
  · exact mem_lookup_add_keyword cfg.categories C kw
  · obtain ⟨ks, hmem, hkmem⟩ := exists_entry_add_keyword cfg.categories C kw
    have hany : ((C, ks).2.any (fun k => pyIn (lowerStr k) (lowerStr merchant_name))) =
        true := List.any_eq_true.mpr ⟨kw, hkmem, hsub⟩
    obtain ⟨c2, hc2⟩ := rule_match_isSome_of_mem
      (add_keyword cfg.categories C kw) (lowerStr merchant_name) (C, ks) hmem hany
    have hcore2 : categorize_core (update_config_with_new_keyword cfg C kw)
        merchant_name amount = some c2 := by
      unfold categorize_core
      rw [if_neg hov]
      exact hc2
    exact ⟨c2, hcore2, fun inputs2 => by
      unfold categorize_transaction_with_amount
      rw [hcore2]⟩

/-- C3 witness: "Zanzibar Bistro" reaches the fallback under the default
rule set; selecting "Shopping" (input "3") learns "zanzibar bistro" —
which here is a substring of the merchant name — so the first call
returns "Shopping" with the keyword added. -/
theorem learning_fallback_updates_and_rematches_witness :
    categorize_core load_categorization_config_default "Zanzibar Bistro" 5 = none ∧
    categorize_transaction_with_amount load_categorization_config_default
        "Zanzibar Bistro" 5 [InputEvent.line "3"] =
      some ("Shopping",
        update_config_with_new_keyword load_categorization_config_default
          "Shopping" "zanzibar bistro") :=
  ⟨by decide,
    (learning_fallback_updates_and_rematches load_categorization_config_default
      "Zanzibar Bistro" "3" "Shopping" "zanzibar bistro" 5 3
      (by decide) (by decide) (by decide) (by decide) (by decide) (by decide)
      (by decide)).1⟩

/-- C7 failing input: on "SQ * 6602-" every known-merchant rule misses, the
marker stripping consumes the whole description, the word loop keeps
nothing, and the last resort returns the title-cased RAW description
truncated to 15 characters — "Sq * 6602-", which has three
whitespace-separated words, contradicting the function's own
"max 2 words" contract. -/
theorem extract_merchant_name_three_words_failing_input :
    extract_merchant_name "SQ * 6602-" = "Sq * 6602-" ∧
    (pySplitStr (extract_merchant_name "SQ * 6602-")).length = 3 := by
  decide

theorem process_middle_skip (cfg : ProcessorConfig) (row : Row)
    (h : should_skip_transaction cfg row = true) (pre post : List Row) :
    process cfg (pre ++ row :: post) = process cfg (pre ++ post) := by
  induction pre with
  | nil => simp [process, h]
  | cons r pre2 ih =>
    simp only [List.cons_append]
    by_cases hs : should_skip_transaction cfg r = true
    · simp [process, hs, ih]
    · simp only [Bool.not_eq_true] at hs
      cases hx : extract_transaction_data cfg r with
      | none => simp [process, hs, hx]
      | some t => simp [process, hs, hx, ih]

/-- C8: for an adapter configured with a non-empty skip-pattern list and a
description column, any row whose description cell contains a configured
skip pattern case-insensitively is skip-checked true, and removing it from
the input leaves the output of `process` unchanged — no transaction
derived from it appears. -/
theorem skip_pattern_excludes_row (cfg : ProcessorConfig) (row : Row)
    (dcol p : String) (cell : Cell) (pre post : List Row)
    (hdc : cfg.description_column_name = some dcol)
    (hdne : dcol.data.isEmpty = false)
    (hsp : cfg.skip_patterns.isEmpty = false)
    (hmem : p ∈ cfg.skip_patterns)
    (hcell : row_get row dcol = some cell)
    (hsub : pyIn (lowerStr p) (lowerStr (py_str_cell cell)) = true) :
    should_skip_transaction cfg row = true ∧
    process cfg (pre ++ row :: post) = process cfg (pre ++ post) := by
  have hskip : should_skip_transaction cfg row = true := by
    unfold should_skip_transaction
    rw [hdc]
    show (if (cfg.skip_patterns.isEmpty || dcol.data.isEmpty) = true then false
      else
        match row_get row dcol with
        | some cell2 =>
          cfg.skip_patterns.any fun q => pyIn (lowerStr q) (lowerStr (py_str_cell cell2))
        | none => false) = true
    rw [if_neg (by rw [hsp, hdne]; exact Bool.false_ne_true)]
    rw [hcell]
    show cfg.skip_patterns.any
      (fun q => pyIn (lowerStr q) (lowerStr (py_str_cell cell))) = true
    exact List.any_eq_true.mpr ⟨p, hmem, hsub⟩
  exact ⟨hskip, process_middle_skip cfg row hskip pre post⟩

/-- C8 witness: a Citi-style adapter drops the "COSTCO WHSE" row; the
remaining row alone determines the output. -/
theorem skip_pattern_excludes_row_witness :
    should_skip_transaction
        ⟨some "Date", some "Description", some "Amount", 1, ["costco"]⟩
        [("Date", some "2025-01-02"), ("Description", some "COSTCO WHSE #0001"),
          ("Amount", some "45.00")] = true ∧
    process ⟨some "Date", some "Description", some "Amount", 1, ["costco"]⟩
        [[("Date", some "2025-01-02"), ("Description", some "COSTCO WHSE #0001"),
            ("Amount", some "45.00")],
          [("Date", some "2025-01-03"), ("Description", some "QFC #345"),
            ("Amount", some "12.00")]] =
      process ⟨some "Date", some "Description", some "Amount", 1, ["costco"]⟩
        [[("Date", some "2025-01-03"), ("Description", some "QFC #345"),
            ("Amount", some "12.00")]] :=
  skip_pattern_excludes_row
    ⟨some "Date", some "Description", some "Amount", 1, ["costco"]⟩
    [("Date", some "2025-01-02"), ("Description", some "COSTCO WHSE #0001"),
      ("Amount", some "45.00")]
    "Description" "costco" (some "COSTCO WHSE #0001") []
    [[("Date", some "2025-01-03"), ("Description", some "QFC #345"),
        ("Amount", some "12.00")]]
    rfl (by decide) (by decide) (by decide) (by decide) (by decide)

/-- C9: the consolidated Citi amount is Debit plus Credit — addition, not
subtraction — with a missing value treated as 0, and the extracted
transaction carries exactly that amount (the multiplier is 1). -/
theorem citi_consolidation_adds_debit_credit (r : CitiRow) (qd qc : ℚ)
    (hd : fillna_float r.debit = some qd) (hc : fillna_float r.credit = some qc) :
    citi_consolidated_amount r = some (qd + qc) ∧
    citi_extract_transaction_data r =
      some ⟨r.date_cell, r.description_cell, qd + qc⟩ := by
  have h1 : citi_consolidated_amount r = some (qd + qc) := by
    unfold citi_consolidated_amount
    rw [hd, hc]
  refine ⟨h1, ?_⟩
  unfold citi_extract_transaction_data
  rw [h1]
  simp [citi_amount_multiplier]

/-- C9 witness: the row with Debit "32.50" and an empty Credit cell
consolidates to 65/2 + 0 = 32.50. -/
theorem citi_consolidation_adds_debit_credit_witness :
    fillna_float (some "32.50") = some ((65 : ℚ) / 2) ∧
    fillna_float (none : Cell) = some (0 : ℚ) ∧
    citi_extract_transaction_data
        ⟨some "2025-03-01", some "TST* Dough Zone 2xxx", some "32.50", none⟩ =
      some ⟨some "2025-03-01", some "TST* Dough Zone 2xxx", (65 : ℚ) / 2 + 0⟩ := by
  have hd : fillna_float (some "32.50") = some ((65 : ℚ) / 2) := by
    have h : fillna_float (some "32.50") =
        some ((1 : ℚ) * ((3250 : ℕ) : ℚ) / ((100 : ℕ) : ℚ)) := rfl
    rw [h]; norm_num
  exact ⟨hd, rfl,
    (citi_consolidation_adds_debit_credit
      ⟨some "2025-03-01", some "TST* Dough Zone 2xxx", some "32.50", none⟩
      ((65 : ℚ) / 2) 0 hd rfl).2⟩
